import Mathlib

/-!
Verification development for the ibmz-mcp-server repository.

The program under study is `index.js`: an MCP server exposing a fixed
catalog of 13 tools.  A single `CallToolRequestSchema` handler receives a
`(name, arguments)` pair, routes it by string prefix to the Key Protect or
z/OS Connect handlers, issues at most one backend call (IBM Key Protect SDK
method or an HTTP fetch against the z/OS Connect base URL), and shapes the
response into a single `{type: "text", text}` content item; the whole body
is wrapped in a try/catch that turns any thrown error into an
`Error: ...` text item.

The embedding below models JavaScript values (`JVal`), the relevant JS
builtin semantics (`||` defaulting, truthiness, `String(...)` conversion,
`String.prototype.replace` with a string pattern, `encodeURIComponent`,
`URLSearchParams` serialization), the environment configuration, and the
dispatch function itself.  Backend network calls are represented by a
`BackendReq` datatype; the backend (SDK + network) is an oracle
`BackendReq → Except String JVal`, where `.error m` models a thrown
exception with message `m`.  The list of issued `BackendReq`s is recorded
so that claims of the form "no network call is made" can be settled.
-/

/-- A JavaScript (JSON-like) value.  `null` models JS `null`; the absence of
a value (JS `undefined`) is modelled by `Option JVal = none` at use sites.
Objects are insertion-ordered association lists, as JS objects are for
string keys. -/
inductive JVal where
  | str (s : String)
  | num (n : Int)
  | bool (b : Bool)
  | null
  | obj (fields : List (String × JVal))
  | arr (elems : List JVal)

/-- The `arguments` object of a tool invocation: a JS object. -/
abbrev Args := List (String × JVal)

/-- JavaScript truthiness of a defined value: `0`, `""`, `false` and `null`
are falsy; objects and arrays are always truthy. -/
def JVal.truthy : JVal → Bool
  | .str s => s != ""
  | .num n => n != 0
  | .bool b => b
  | .null => false
  | .obj _ => true
  | .arr _ => true

/-- Truthiness of a possibly-undefined value (JS `undefined` is falsy). -/
def truthyOpt : Option JVal → Bool
  | some v => v.truthy
  | none => false

/-- JavaScript `x || d` on a possibly-undefined `x`: the value itself when
truthy, otherwise the default. -/
def jsOr (x : Option JVal) (d : JVal) : JVal :=
  match x with
  | some v => if v.truthy then v else d
  | none => d

/-- Modelled from the ECMAScript definition of
`String.prototype.startsWith`: character-list prefix test. -/
def jsStartsWith (s pre' : String) : Bool :=
  pre'.data.isPrefixOf s.data

mutual

/-- Modelled from the ECMAScript `String(...)` / `toString` conversion, for
the value shapes representable as `JVal` (integer numerics). -/
def jsToString : JVal → String
  | .str s => s
  | .num n => toString n
  | .bool b => cond b "true" "false"
  | .null => "null"
  | .obj _ => "[object Object]"
  | .arr vs => jsJoinComma vs

/-- Array `toString`: elements joined with commas, `null` printing as
the empty string. -/
def jsJoinComma : List JVal → String
  | [] => ""
  | [JVal.null] => ""
  | [v] => jsToString v
  | JVal.null :: w :: rest => "," ++ jsJoinComma (w :: rest)
  | v :: w :: rest => jsToString v ++ "," ++ jsJoinComma (w :: rest)

end

/-- `String(...)` conversion where the argument may be JS `undefined`
(template-literal interpolation of an absent property prints
`"undefined"`). -/
def jsToStringOpt : Option JVal → String
  | some v => jsToString v
  | none => "undefined"

/-- JS property access `v.k` returning `undefined` (`none`) when absent or
when `v` is not an object. -/
def JVal.get (v : JVal) (k : String) : Option JVal :=
  match v with
  | .obj fs => fs.lookup k
  | _ => none

/-- Optional-chaining property access on a possibly-undefined value. -/
def oget (o : Option JVal) (k : String) : Option JVal :=
  o.bind (fun v => v.get k)

/-- Optional-chaining index access `o?.[i]` on a possibly-undefined value. -/
def oidx (o : Option JVal) (i : Nat) : Option JVal :=
  o.bind (fun v =>
    match v with
    | .arr vs => vs[i]?
    | _ => none)

/-- Modelled from JS `Object.entries`: fields of an object in insertion
order; arrays yield index/element pairs; primitives yield nothing.  (The
program only reaches this behind a truthiness guard, so `null` is
unreachable here.) -/
def jsEntries : JVal → Args
  | .obj fs => fs
  | .arr vs => (vs.enum.map (fun p => (toString p.1, p.2)))
  | .str s => (s.data.enum.map (fun p => (toString p.1, JVal.str (String.mk [p.2]))))
  | _ => []

/-- Build a JS object literal whose properties may be `undefined`:
`JSON.stringify` (and the SDK's serializer) drops `undefined`-valued
properties, so they are dropped at construction in this model. -/
def mkObj (l : List (String × Option JVal)) : JVal :=
  .obj (l.filterMap (fun kv => kv.2.map (fun v => (kv.1, v))))

/-- A single object property that is dropped when the value is
`undefined` (serialization drops it). -/
def optField (k : String) (v : Option JVal) : List (String × JVal) :=
  match v with
  | some x => [(k, x)]
  | none => []

/-- `if (args.k) obj.k = args.k`: a property added only when the value is
defined and truthy. -/
def addIfTruthy (k : String) (v : Option JVal) : List (String × JVal) :=
  match v with
  | some x => if x.truthy then [(k, x)] else []
  | none => []

/-- Upper-case hexadecimal digit of a value below 16. -/
def hexDigitChar (n : Nat) : Char :=
  if n < 10 then Char.ofNat (48 + n) else Char.ofNat (55 + n)

/-- `%XY` percent-encoding of one byte. -/
def percentEncodeByte (b : Nat) : List Char :=
  [Char.ofNat 37, hexDigitChar (b / 16), hexDigitChar (b % 16)]

/-- UTF-8 bytes of a single code point. -/
def utf8BytesOfChar (c : Char) : List Nat :=
  let n := c.toNat
  if n < 128 then [n]
  else if n < 2048 then [192 + n / 64, 128 + n % 64]
  else if n < 65536 then [224 + n / 4096, 128 + (n / 64) % 64, 128 + n % 64]
  else [240 + n / 262144, 128 + (n / 4096) % 64, 128 + (n / 64) % 64, 128 + n % 64]

/-- Characters left unescaped by `encodeURIComponent`:
`A–Z a–z 0–9 - _ . ! ~ * ' ( )`. -/
def uriUnreservedChar (c : Char) : Bool :=
  (65 ≤ c.toNat && c.toNat ≤ 90) || (97 ≤ c.toNat && c.toNat ≤ 122) ||
  (48 ≤ c.toNat && c.toNat ≤ 57) ||
  c = Char.ofNat 45 || c = Char.ofNat 95 || c = Char.ofNat 46 ||
  c = Char.ofNat 33 || c = Char.ofNat 126 || c = Char.ofNat 42 ||
  c = Char.ofNat 39 || c = Char.ofNat 40 || c = Char.ofNat 41

/-- Modelled from the ECMAScript definition of `encodeURIComponent`:
unreserved code points pass through, all others are percent-encoded as
their UTF-8 bytes. -/
def encodeURIComponent (s : String) : String :=
  String.mk ((s.data.map (fun c =>
    if uriUnreservedChar c then [c]
    else ((utf8BytesOfChar c).map percentEncodeByte).flatten)).flatten)

/-- One byte of `application/x-www-form-urlencoded` serialization: space
becomes `+`; `* - . _` and alphanumerics pass; the rest percent-encode. -/
def formUrlByte (b : Nat) : List Char :=
  if b = 32 then [Char.ofNat 43]
  else if b = 42 || b = 45 || b = 46 || b = 95 ||
          (48 ≤ b && b ≤ 57) || (65 ≤ b && b ≤ 90) || (97 ≤ b && b ≤ 122)
  then [Char.ofNat b]
  else percentEncodeByte b

/-- `application/x-www-form-urlencoded` encoding of one string. -/
def formUrlEncode (s : String) : String :=
  String.mk (((s.data.map utf8BytesOfChar).flatten.map formUrlByte).flatten)

/-- Modelled from the WHATWG URL specification of
`new URLSearchParams(object).toString()`: pairs `k=v`, urlencoded, joined
with `&` in insertion order. -/
def urlSearchParamsString (ps : Args) : String :=
  String.intercalate "&"
    (ps.map (fun kv => formUrlEncode kv.1 ++ "=" ++ formUrlEncode (jsToString kv.2)))

/-- Modelled from the ECMAScript definition of
`String.prototype.replace(pattern, replacement)` with a string pattern:
only the first occurrence of the pattern is replaced.  (The replacement
strings produced by the program never contain `$`, so the `$`-substitution
rules are inert.) -/
def replaceFirstAux (pat repl : List Char) : List Char → List Char
  | [] => []
  | c :: rest =>
    if pat.isPrefixOf (c :: rest) then repl ++ (c :: rest).drop pat.length
    else c :: replaceFirstAux pat repl rest

/-- String-level wrapper of `replaceFirstAux`. -/
def jsReplaceFirst (s pat repl : String) : String :=
  String.mk (replaceFirstAux pat.data repl.data s.data)

/-- One iteration of the path-parameter substitution loop in the
`zos_connect_call_service` handler:
`endpoint.replace(&#96;{key}&#96;, encodeURIComponent(String(value)))`. -/
def substOne (endpoint : String) (k : String) (v : JVal) : String :=
  jsReplaceFirst endpoint ("\x7b" ++ k ++ "\x7d") (encodeURIComponent (jsToString v))

/-- The whole `for (const [key, value] of Object.entries(args.path_params))`
loop. -/
def substPathParams (endpoint : String) (ps : Args) : String :=
  ps.foldl (fun e kv => substOne e kv.1 kv.2) endpoint

/-- Process environment configuration read by `index.js`: each field is a
`process.env` variable (absent = `undefined`). -/
structure Config where
  ibmCloudApiKey : Option String
  keyProtectInstanceId : Option String
  keyProtectUrl : Option String
  zosConnectUrl : Option String
  zosConnectUsername : Option String
  zosConnectPassword : Option String

/-- JS truthiness of an environment variable (`undefined` and `""` falsy). -/
def envTruthy : Option String → Bool
  | none => false
  | some s => s != ""

/-- `getKeyProtectClient()` returns a client exactly when both
`IBM_CLOUD_API_KEY` and `KEY_PROTECT_INSTANCE_ID` are truthy. -/
def kpConfigured (cfg : Config) : Bool :=
  envTruthy cfg.ibmCloudApiKey && envTruthy cfg.keyProtectInstanceId

/-- `ZOS_CONNECT_URL` is set (the check guarding all z/OS Connect tools). -/
def zosConfigured (cfg : Config) : Bool :=
  envTruthy cfg.zosConnectUrl

/-- The `KEY_PROTECT_INSTANCE_ID` string passed as `bluemixInstance` (only
used on the configured path, where it is present). -/
def kpInstance (cfg : Config) : String :=
  cfg.keyProtectInstanceId.getD ""

/-- The `ZOS_CONNECT_URL` base prepended to every z/OS Connect endpoint. -/
def zosBase (cfg : Config) : String :=
  cfg.zosConnectUrl.getD ""

/-- A backend call issued by the handler: one constructor per IBM Key
Protect SDK method used, mirroring the parameter object passed to it, plus
`zosFetch` for the `fetch` performed by `callZosConnect` (url = base ++
endpoint; basic-auth headers are configuration-derived and carried by the
oracle, not by the request record). -/
inductive BackendReq where
  | getKeys (bluemixInstance : String) (limit offset : JVal) (state : Option JVal)
  | createKey (bluemixInstance : String) (keyCreateBody : JVal)
  | getKey (bluemixInstance : String) (id : Option JVal)
  | wrapKey (id : Option JVal) (bluemixInstance : String) (keyActionWrapBody : JVal)
  | unwrapKey (id : Option JVal) (bluemixInstance : String) (keyActionUnwrapBody : JVal)
  | rotateKey (id : Option JVal) (bluemixInstance : String) (keyActionRotateBody : Option JVal)
  | deleteKey (bluemixInstance : String) (id : Option JVal) (force : JVal)
  | getKeyMetadata (bluemixInstance : String) (id : Option JVal)
  | zosFetch (url : String) (method : JVal) (body : Option JVal)

/-- The backend (SDK + network): a response value on success, or the
message of the thrown exception. -/
abbrev Backend := BackendReq → Except String JVal

/-- The `text` member of a returned content item: either a plain diagnostic
string, or `JSON.stringify(v, null, 2)` of a payload (kept unserialized;
`none` models `JSON.stringify(undefined)`). -/
inductive TextVal where
  | raw (s : String)
  | json (v : Option JVal)

/-- One member of the returned `content` array. -/
structure ContentItem where
  type : String
  text : TextVal

/-- Result of one dispatch: the returned content plus the backend requests
that were issued while producing it. -/
structure DispatchOut where
  content : List ContentItem
  requests : List BackendReq

/-- A return that issues no backend call. -/
def noCall (t : TextVal) : DispatchOut :=
  ⟨[⟨"text", t⟩], []⟩

/-- Issue one backend call and shape its response; a thrown error is caught
by the handler's try/catch and becomes `Error: ${error.message}`. -/
def runCall (bk : Backend) (req : BackendReq) (shape : JVal → TextVal) : DispatchOut :=
  match bk req with
  | .error m => ⟨[⟨"text", .raw ("Error: " ++ m)⟩], [req]⟩
  | .ok resp => ⟨[⟨"text", shape resp⟩], [req]⟩

/-- The not-configured diagnostic for Key Protect tools. -/
def kpMissingText : String :=
  "Error: Key Protect not configured. Set IBM_CLOUD_API_KEY and KEY_PROTECT_INSTANCE_ID environment variables."

/-- The not-configured diagnostic for z/OS Connect tools. -/
def zosMissingText : String :=
  "Error: z/OS Connect not configured. Set ZOS_CONNECT_URL environment variable. This requires access to an IBM mainframe with z/OS Connect EE installed."

/-- The names of the 13 tools registered with `ListToolsRequestSchema`. -/
def catalogNames : List String :=
  ["key_protect_list_keys", "key_protect_create_key", "key_protect_get_key",
   "key_protect_wrap_key", "key_protect_unwrap_key", "key_protect_rotate_key",
   "key_protect_delete_key", "key_protect_get_key_policies",
   "zos_connect_list_services", "zos_connect_get_service",
   "zos_connect_call_service", "zos_connect_list_apis", "zos_connect_health"]

/-- `args.type === "root_key"`-style strict string comparison on a
possibly-undefined value. -/
def isStrVal : Option JVal → String → Bool
  | some (.str t), s => t == s
  | _, _ => false

/-- Strict string comparison `v === s` on a defined value. -/
def jvalIsStr : JVal → String → Bool
  | .str t, s => t == s
  | _, _ => false

/-- `getKeys` request of the `key_protect_list_keys` case: note the JS
`args.limit || 100` and `args.offset || 0` defaulting. -/
def listKeysReq (cfg : Config) (args : Args) : BackendReq :=
  .getKeys (kpInstance cfg)
    (jsOr (args.lookup "limit") (.num 100))
    (jsOr (args.lookup "offset") (.num 0))
    (args.lookup "state")

/-- Per-key summary picked in `key_protect_list_keys`. -/
def pickKeyFields (k : JVal) : JVal :=
  mkObj [("id", k.get "id"), ("name", k.get "name"), ("type", k.get "type"),
         ("state", k.get "state"), ("extractable", k.get "extractable"),
         ("crn", k.get "crn"), ("createdBy", k.get "createdBy"),
         ("creationDate", k.get "creationDate"),
         ("lastRotateDate", k.get "lastRotateDate"), ("deleted", k.get "deleted")]

/-- Response shaping of `key_protect_list_keys`:
`response.result.resources?.map(...) || []` then `{total, keys}`. -/
def listKeysShape (resp : JVal) : TextVal :=
  let keys : List JVal :=
    match oget (resp.get "result") "resources" with
    | some (.arr vs) => vs.map pickKeyFields
    | _ => []
  .json (some (.obj [("total", .num keys.length), ("keys", .arr keys)]))

/-- The `keyResource` object literal built by `key_protect_create_key`:
`extractable` is `false` when `args.type === "root_key"`, otherwise
`args.extractable || false`; `description`/`payload` added only when
truthy. -/
def createKeyResource (args : Args) : List (String × JVal) :=
  let isRootKey := isStrVal (args.lookup "type") "root_key"
  [("type", JVal.str "application/vnd.ibm.kms.key+json")]
    ++ optField "name" (args.lookup "name")
    ++ [("extractable", if isRootKey then JVal.bool false
                        else jsOr (args.lookup "extractable") (.bool false))]
    ++ addIfTruthy "description" (args.lookup "description")
    ++ addIfTruthy "payload" (args.lookup "payload")

/-- The `keyCreateBody` metadata/resources envelope. -/
def createKeyBody (args : Args) : JVal :=
  .obj [("metadata", .obj [("collectionType", .str "application/vnd.ibm.kms.key+json"),
                           ("collectionTotal", .num 1)]),
        ("resources", .arr [.obj (createKeyResource args)])]

/-- Response shaping of `key_protect_create_key`: a message plus the
`id`/`name`/`type`/`crn` of `response.result.resources?.[0]`. -/
def createShape (args : Args) (resp : JVal) : TextVal :=
  let r0 := oidx (oget (resp.get "result") "resources") 0
  .json (some (.obj
    [("message", .str ("Key \"" ++ jsToStringOpt (args.lookup "name") ++ "\" created successfully")),
     ("key", mkObj [("id", oget r0 "id"), ("name", oget r0 "name"),
                    ("type", oget r0 "type"), ("crn", oget r0 "crn")])]))

/-- Response shaping of `key_protect_get_key`:
`response.result.resources?.[0]` stringified. -/
def getKeyShape (resp : JVal) : TextVal :=
  .json (oidx (oget (resp.get "result") "resources") 0)

/-- `keyActionWrapBody`: `{plaintext}` plus `aad` when truthy. -/
def wrapBody (args : Args) : JVal :=
  .obj (optField "plaintext" (args.lookup "plaintext") ++ addIfTruthy "aad" (args.lookup "aad"))

/-- The `wrapKey` SDK call of `key_protect_wrap_key`. -/
def wrapReq (cfg : Config) (args : Args) : BackendReq :=
  .wrapKey (args.lookup "key_id") (kpInstance cfg) (wrapBody args)

/-- Response shaping of `key_protect_wrap_key`. -/
def wrapShape (resp : JVal) : TextVal :=
  .json (some (mkObj
    [("message", some (.str "Key wrapped successfully")),
     ("ciphertext", oget (resp.get "result") "ciphertext"),
     ("keyVersion", oget (resp.get "result") "keyVersion")]))

/-- `keyActionUnwrapBody`: `{ciphertext}` plus `aad` when truthy.  Note
that no `keyVersion` field exists anywhere in this handler. -/
def unwrapBody (args : Args) : JVal :=
  .obj (optField "ciphertext" (args.lookup "ciphertext") ++ addIfTruthy "aad" (args.lookup "aad"))

/-- The `unwrapKey` SDK call of `key_protect_unwrap_key`. -/
def unwrapReq (cfg : Config) (args : Args) : BackendReq :=
  .unwrapKey (args.lookup "key_id") (kpInstance cfg) (unwrapBody args)

/-- Response shaping of `key_protect_unwrap_key`. -/
def unwrapShape (resp : JVal) : TextVal :=
  .json (some (mkObj
    [("message", some (.str "Key unwrapped successfully")),
     ("plaintext", oget (resp.get "result") "plaintext"),
     ("keyVersion", oget (resp.get "result") "keyVersion")]))

/-- The `rotateKey` SDK call: `keyActionRotateBody` present only when
`args.payload` is truthy. -/
def rotateReq (cfg : Config) (args : Args) : BackendReq :=
  .rotateKey (args.lookup "key_id") (kpInstance cfg)
    (match args.lookup "payload" with
     | some v => if v.truthy then some (.obj [("payload", v)]) else none
     | none => none)

/-- Response shaping of `key_protect_rotate_key` (the response itself is
unused by the handler). -/
def rotateShape (args : Args) (_resp : JVal) : TextVal :=
  .json (some (mkObj
    [("message", some (.str ("Key " ++ jsToStringOpt (args.lookup "key_id") ++ " rotated successfully"))),
     ("keyId", args.lookup "key_id")]))

/-- The `deleteKey` SDK call with `force: args.force || false`. -/
def deleteReq (cfg : Config) (args : Args) : BackendReq :=
  .deleteKey (kpInstance cfg) (args.lookup "key_id") (jsOr (args.lookup "force") (.bool false))

/-- Response shaping of `key_protect_delete_key`. -/
def deleteShape (args : Args) (_resp : JVal) : TextVal :=
  .json (some (mkObj
    [("message", some (.str ("Key " ++ jsToStringOpt (args.lookup "key_id") ++ " deleted successfully"))),
     ("warning", some (.str "This action is irreversible. Data encrypted with this key is now unrecoverable."))]))

/-- Response shaping of `key_protect_get_key_policies`:
`response.result` stringified. -/
def policiesShape (resp : JVal) : TextVal :=
  .json (resp.get "result")

/-- The endpoint string built by `zos_connect_call_service`: the service
path, then the path-parameter substitution loop (when `args.path_params` is
truthy), then the query string (when `args.query_params` is truthy).  No
check for unresolved placeholders is performed. -/
def callServiceEndpoint (args : Args) : String :=
  let e0 := "/zosConnect/services/" ++ jsToStringOpt (args.lookup "service_name")
              ++ jsToString (jsOr (args.lookup "operation") (.str "/"))
  let e1 :=
    match args.lookup "path_params" with
    | some pp => if pp.truthy then substPathParams e0 (jsEntries pp) else e0
    | none => e0
  match args.lookup "query_params" with
  | some qp => if qp.truthy then e1 ++ "?" ++ urlSearchParamsString (jsEntries qp) else e1
  | none => e1

/-- `args.method || "POST"`. -/
def callServiceMethod (args : Args) : JVal :=
  jsOr (args.lookup "method") (.str "POST")

/-- The request body attached by `callZosConnect`: only when the payload is
truthy and the method is strictly `POST`, `PUT` or `PATCH`. -/
def callServiceBody (args : Args) : Option JVal :=
  let m := callServiceMethod args
  if truthyOpt (args.lookup "payload")
     && (jvalIsStr m "POST" || jvalIsStr m "PUT" || jvalIsStr m "PATCH")
  then args.lookup "payload" else none

/-- The `fetch` issued by `zos_connect_call_service` through
`callZosConnect`. -/
def callServiceReq (cfg : Config) (args : Args) : BackendReq :=
  .zosFetch (zosBase cfg ++ callServiceEndpoint args) (callServiceMethod args) (callServiceBody args)

/-- Response shaping of `zos_connect_call_service`. -/
def callServiceShape (args : Args) (resp : JVal) : TextVal :=
  .json (some (mkObj
    [("service", args.lookup "service_name"),
     ("operation", some (jsOr (args.lookup "operation") (.str "/"))),
     ("method", some (callServiceMethod args)),
     ("response", some resp)]))

/-- The z/OS Connect half of the tool-call handler, together with the final
`Unknown tool` return that both switch statements fall through to. -/
def dispatchZos (cfg : Config) (bk : Backend) (name : String) (args : Args) : DispatchOut :=
  if jsStartsWith name "zos_connect_" then
    if !(zosConfigured cfg) then noCall (.raw zosMissingText)
    else
      match name with
      | "zos_connect_list_services" =>
          runCall bk (.zosFetch (zosBase cfg ++ "/zosConnect/services") (.str "GET") none)
            (fun resp => .json (some resp))
      | "zos_connect_get_service" =>
          runCall bk (.zosFetch (zosBase cfg ++ ("/zosConnect/services/" ++ jsToStringOpt (args.lookup "service_name")))
              (.str "GET") none)
            (fun resp => .json (some resp))
      | "zos_connect_call_service" =>
          runCall bk (callServiceReq cfg args) (callServiceShape args)
      | "zos_connect_list_apis" =>
          runCall bk (.zosFetch (zosBase cfg ++ "/zosConnect/apis") (.str "GET") none)
            (fun resp => .json (some resp))
      | "zos_connect_health" =>
          runCall bk (.zosFetch (zosBase cfg ++ "/zosConnect/health") (.str "GET") none)
            (fun resp => .json (some resp))
      | _ => noCall (.raw ("Unknown tool: " ++ name))
  else noCall (.raw ("Unknown tool: " ++ name))

/-- The `CallToolRequestSchema` handler of `index.js`: prefix-routed
dispatch with per-backend configuration checks, at most one backend call,
and a catch-all that never lets an exception escape. -/
def dispatch (cfg : Config) (bk : Backend) (name : String) (args : Args) : DispatchOut :=
  if jsStartsWith name "key_protect_" then
    if !(kpConfigured cfg) then noCall (.raw kpMissingText)
    else
      match name with
      | "key_protect_list_keys" => runCall bk (listKeysReq cfg args) listKeysShape
      | "key_protect_create_key" =>
          runCall bk (.createKey (kpInstance cfg) (createKeyBody args)) (createShape args)
      | "key_protect_get_key" =>
          runCall bk (.getKey (kpInstance cfg) (args.lookup "key_id")) getKeyShape
      | "key_protect_wrap_key" => runCall bk (wrapReq cfg args) wrapShape
      | "key_protect_unwrap_key" => runCall bk (unwrapReq cfg args) unwrapShape
      | "key_protect_rotate_key" => runCall bk (rotateReq cfg args) (rotateShape args)
      | "key_protect_delete_key" => runCall bk (deleteReq cfg args) (deleteShape args)
      | "key_protect_get_key_policies" =>
          runCall bk (.getKeyMetadata (kpInstance cfg) (args.lookup "key_id")) policiesShape
      | _ => dispatchZos cfg bk name args
  else dispatchZos cfg bk name args

/-! ## Concrete fixtures used by witnesses and counterexamples -/

/-- A configuration with both backends configured. -/
def cfgAll : Config := ⟨some "api-key-1", some "inst-1", none, some "https://zos", none, none⟩

/-- Only z/OS Connect configured (Key Protect environment absent). -/
def cfgZosOnly : Config := ⟨none, none, none, some "https://zos", none, none⟩

/-- Only Key Protect configured (z/OS Connect environment absent). -/
def cfgKpOnly : Config := ⟨some "api-key-1", some "inst-1", none, none, none, none⟩

/-- A trivial backend oracle answering every request with an empty object. -/
def bkEmpty : Backend := fun _ => .ok (.obj [])

/-- The key types of the data model (RootKey wraps, StandardKey encrypts
directly).  The dispatch code has no access to this information: it is used
only to state type-safety claims about ids that denote standard keys. -/
inductive KeyType where
  | RootKey
  | StandardKey
deriving DecidableEq

/-- A sample backend key directory: `root-1` is a root key, every other id
(in particular `std-1`) is a standard key. -/
def sampleKeyTypes : String → KeyType :=
  fun id => if id = "root-1" then .RootKey else .StandardKey

/-! ## Helper lemmas -/

/-- `runCall` records exactly its one request, whether the backend throws
or succeeds. -/
theorem runCall_requests (bk : Backend) (req : BackendReq) (shape : JVal → TextVal) :
    (runCall bk req shape).requests = [req] := by
  unfold runCall
  cases bk req <;> rfl

/-- `runCall` always returns a single text content item. -/
theorem runCall_structured (bk : Backend) (req : BackendReq) (shape : JVal → TextVal) :
    ∃ t, (runCall bk req shape).content = [⟨"text", t⟩] := by
  unfold runCall
  cases bk req with
  | error m => exact ⟨.raw ("Error: " ++ m), rfl⟩
  | ok r => exact ⟨shape r, rfl⟩

/-- A name cannot carry both the `zos_connect_` and the `key_protect_`
prefix. -/
theorem zos_not_kp (name : String) (h : jsStartsWith name "zos_connect_" = true) :
    jsStartsWith name "key_protect_" = false := by
  by_contra hk
  rw [Bool.not_eq_false] at hk
  unfold jsStartsWith at h hk
  rw [List.isPrefixOf_iff_prefix] at h hk
  have h2 := List.prefix_of_prefix_length_le h hk (by decide)
  have h3 := h2.eq_of_length (by decide)
  exact absurd h3 (by decide)

/-- Reduction of `dispatch` on unconfigured Key Protect. -/
theorem dispatch_kp_unconfigured (cfg : Config) (bk : Backend) (name : String) (args : Args)
    (h : jsStartsWith name "key_protect_" = true) (hc : kpConfigured cfg = false) :
    dispatch cfg bk name args = noCall (.raw kpMissingText) := by
  unfold dispatch
  rw [if_pos h, hc]
  simp

/-- Reduction of `dispatch` on unconfigured z/OS Connect. -/
theorem dispatch_zos_unconfigured (cfg : Config) (bk : Backend) (name : String) (args : Args)
    (h : jsStartsWith name "zos_connect_" = true) (hc : zosConfigured cfg = false) :
    dispatch cfg bk name args = noCall (.raw zosMissingText) := by
  unfold dispatch
  rw [if_neg (by simp [zos_not_kp name h])]
  unfold dispatchZos
  rw [if_pos h, hc]
  simp

/-- Reduction of `dispatch` for `key_protect_list_keys` on a configured
backend. -/
theorem dispatch_list_keys (cfg : Config) (bk : Backend) (args : Args)
    (hk : kpConfigured cfg = true) :
    dispatch cfg bk "key_protect_list_keys" args = runCall bk (listKeysReq cfg args) listKeysShape := by
  unfold dispatch
  rw [if_pos (show jsStartsWith "key_protect_list_keys" "key_protect_" = true from rfl), hk]
  simp

/-- Reduction of `dispatch` for `key_protect_create_key` on a configured
backend. -/
theorem dispatch_create_key (cfg : Config) (bk : Backend) (args : Args)
    (hk : kpConfigured cfg = true) :
    dispatch cfg bk "key_protect_create_key" args =
      runCall bk (.createKey (kpInstance cfg) (createKeyBody args)) (createShape args) := by
  unfold dispatch
  rw [if_pos (show jsStartsWith "key_protect_create_key" "key_protect_" = true from rfl), hk]
  simp

/-- Reduction of `dispatch` for `key_protect_get_key` on a configured
backend. -/
theorem dispatch_get_key (cfg : Config) (bk : Backend) (args : Args)
    (hk : kpConfigured cfg = true) :
    dispatch cfg bk "key_protect_get_key" args =
      runCall bk (.getKey (kpInstance cfg) (args.lookup "key_id")) getKeyShape := by
  unfold dispatch
  rw [if_pos (show jsStartsWith "key_protect_get_key" "key_protect_" = true from rfl), hk]
  simp

/-- Reduction of `dispatch` for `key_protect_wrap_key` on a configured
backend. -/
theorem dispatch_wrap_key (cfg : Config) (bk : Backend) (args : Args)
    (hk : kpConfigured cfg = true) :
    dispatch cfg bk "key_protect_wrap_key" args = runCall bk (wrapReq cfg args) wrapShape := by
  unfold dispatch
  rw [if_pos (show jsStartsWith "key_protect_wrap_key" "key_protect_" = true from rfl), hk]
  simp

/-- Reduction of `dispatch` for `key_protect_unwrap_key` on a configured
backend. -/
theorem dispatch_unwrap_key (cfg : Config) (bk : Backend) (args : Args)
    (hk : kpConfigured cfg = true) :
    dispatch cfg bk "key_protect_unwrap_key" args = runCall bk (unwrapReq cfg args) unwrapShape := by
  unfold dispatch
  rw [if_pos (show jsStartsWith "key_protect_unwrap_key" "key_protect_" = true from rfl), hk]
  simp

/-- Reduction of `dispatch` for `key_protect_rotate_key` on a configured
backend. -/
theorem dispatch_rotate_key (cfg : Config) (bk : Backend) (args : Args)
    (hk : kpConfigured cfg = true) :
    dispatch cfg bk "key_protect_rotate_key" args =
      runCall bk (rotateReq cfg args) (rotateShape args) := by
  unfold dispatch
  rw [if_pos (show jsStartsWith "key_protect_rotate_key" "key_protect_" = true from rfl), hk]
  simp

/-- Reduction of `dispatch` for `zos_connect_call_service` on a configured
backend. -/
theorem dispatch_call_service (cfg : Config) (bk : Backend) (args : Args)
    (hz : zosConfigured cfg = true) :
    dispatch cfg bk "zos_connect_call_service" args =
      runCall bk (callServiceReq cfg args) (callServiceShape args) := by
  unfold dispatch
  rw [if_neg (by simp [zos_not_kp "zos_connect_call_service" (by decide)])]
  unfold dispatchZos
  rw [if_pos (show jsStartsWith "zos_connect_call_service" "zos_connect_" = true from rfl), hz]
  simp

/-- `pat` does not match at any position inside `pre` when scanning the
string `pre ++ tail` (i.e. the positions strictly before `pre.length`). -/
def noMatchBefore (pat : List Char) : List Char → List Char → Bool
  | [], _ => true
  | c :: rest, tail => !(pat.isPrefixOf (c :: (rest ++ tail))) && noMatchBefore pat rest tail

/-- First-occurrence semantics of the JS string `replace`: when no match
begins inside `pre`, exactly the shown occurrence of `pat` is replaced and
the suffix — later occurrences included — is left untouched. -/
theorem replaceFirstAux_append (pat repl : List Char) (hne : pat ≠ [])
    (pre suf : List Char) (h : noMatchBefore pat pre (pat ++ suf) = true) :
    replaceFirstAux pat repl (pre ++ (pat ++ suf)) = pre ++ (repl ++ suf) := by
  induction pre with
  | nil =>
    simp only [List.nil_append]
    obtain ⟨c, p, rfl⟩ : ∃ c p, pat = c :: p := by
      cases pat with
      | nil => exact absurd rfl hne
      | cons c p => exact ⟨c, p, rfl⟩
    show replaceFirstAux (c :: p) repl (c :: (p ++ suf)) = repl ++ suf
    unfold replaceFirstAux
    rw [if_pos]
    · rw [show (c :: (p ++ suf)) = (c :: p) ++ suf from rfl, List.drop_left]
    · rw [List.isPrefixOf_iff_prefix]
      exact (c :: p).prefix_append suf
  | cons a rest ih =>
    unfold noMatchBefore at h
    rw [Bool.and_eq_true, Bool.not_eq_true'] at h
    obtain ⟨h1, h2⟩ := h
    show replaceFirstAux pat repl (a :: (rest ++ (pat ++ suf))) = a :: (rest ++ (repl ++ suf))
    unfold replaceFirstAux
    rw [if_neg (by simp [h1]), ih h2]

/-- Association-list lookup into a serialized object with possibly-dropped
properties: a key that is not among the declared property names is absent. -/
theorem filterMapLookupNone (l : List (String × Option JVal)) (k : String)
    (h : k ∉ l.map Prod.fst) :
    (l.filterMap (fun kv => kv.2.map (fun v => (kv.1, v)))).lookup k = none := by
  induction l with
  | nil => rfl
  | cons kv l ih =>
    simp only [List.map_cons, List.mem_cons] at h
    push_neg at h
    obtain ⟨h1, h2⟩ := h
    cases hv : kv.2 with
    | none => simpa [List.filterMap_cons, hv] using ih h2
    | some v =>
      simp only [List.filterMap_cons, hv, Option.map_some]
      simpa [List.lookup_cons, beq_false_of_ne h1] using ih h2

/-- A key absent from a `mkObj` property list is absent from the object. -/
theorem mkObj_get_of_not_mem (l : List (String × Option JVal)) (k : String)
    (h : k ∉ l.map Prod.fst) : (mkObj l).get k = none := by
  unfold mkObj JVal.get
  exact filterMapLookupNone l k h

/-- The `ciphertext` field of `keyActionUnwrapBody` is exactly the
caller-supplied `args.ciphertext`. -/
theorem unwrapBody_get (args : Args) :
    (unwrapBody args).get "ciphertext" = args.lookup "ciphertext" := by
  unfold unwrapBody JVal.get
  cases hc : args.lookup "ciphertext" with
  | some c => simp [optField, List.lookup]
  | none =>
    cases ha : args.lookup "aad" with
    | none => simp [optField, addIfTruthy]
    | some a =>
      cases hta : a.truthy <;> simp [optField, addIfTruthy, hta, List.lookup]

/-- `dispatchZos` always returns a single text content item. -/
theorem dispatchZos_structured (cfg : Config) (bk : Backend) (name : String) (args : Args) :
    ∃ t, (dispatchZos cfg bk name args).content = [⟨"text", t⟩] := by
  unfold dispatchZos
  split
  · split
    · exact ⟨_, rfl⟩
    · split
      · exact runCall_structured ..
      · exact runCall_structured ..
      · exact runCall_structured ..
      · exact runCall_structured ..
      · exact runCall_structured ..
      · exact ⟨_, rfl⟩
  · exact ⟨_, rfl⟩

/-- C5: for every invocation name, argument object, configuration and
backend behaviour (including a throwing backend), dispatch terminates in
exactly one structured content item of the form `{type: "text", text}`
(the text being a JSON payload or a diagnostic string); no fault
propagates to the caller. -/
theorem C5_dispatch_always_structured (cfg : Config) (bk : Backend) (name : String) (args : Args) :
    ∃ t, (dispatch cfg bk name args).content = [⟨"text", t⟩] := by
  unfold dispatch
  split
  · split
    · exact ⟨_, rfl⟩
    · split
      · exact runCall_structured ..
      · exact runCall_structured ..
      · exact runCall_structured ..
      · exact runCall_structured ..
      · exact runCall_structured ..
      · exact runCall_structured ..
      · exact runCall_structured ..
      · exact runCall_structured ..
      · exact dispatchZos_structured ..
  · exact dispatchZos_structured ..

/-- C10: for a name bearing the `key_protect_` (resp. `zos_connect_`)
prefix but absent from the catalog, when that backend's configuration is
missing, dispatch returns the ConfigurationMissing diagnostic for the
backend — not the unknown-operation echo: the configuration check precedes
the operation-name check. -/
theorem C10_config_check_precedes_name_check (cfg : Config) (bk : Backend) (name : String) (args : Args) :
    (jsStartsWith name "key_protect_" = true → name ∉ catalogNames →
       kpConfigured cfg = false →
       dispatch cfg bk name args = noCall (.raw kpMissingText)) ∧
    (jsStartsWith name "zos_connect_" = true → name ∉ catalogNames →
       zosConfigured cfg = false →
       dispatch cfg bk name args = noCall (.raw zosMissingText)) := by
  constructor
  · intro h _ hc
    exact dispatch_kp_unconfigured cfg bk name args h hc
  · intro h _ hc
    exact dispatch_zos_unconfigured cfg bk name args h hc

/-- Witness for C10 at concrete inputs: `key_protect_bogus2` with Key
Protect unconfigured yields the Key Protect ConfigurationMissing text, and
`zos_connect_bogus` with z/OS Connect unconfigured yields the z/OS Connect
ConfigurationMissing text. -/
theorem C10_config_check_precedes_name_check_witness :
    dispatch cfgZosOnly bkEmpty "key_protect_bogus2" [] = noCall (.raw kpMissingText) ∧
    dispatch cfgKpOnly bkEmpty "zos_connect_bogus" [] = noCall (.raw zosMissingText) :=
  ⟨(C10_config_check_precedes_name_check cfgZosOnly bkEmpty "key_protect_bogus2" []).1
     (by decide) (by decide) (by decide),
   (C10_config_check_precedes_name_check cfgKpOnly bkEmpty "zos_connect_bogus" []).2
     (by decide) (by decide) (by decide)⟩

/-- C1 counterexample: the unwrap tool does not accept a `keyVersion` — two
invocations whose argument objects differ only in the value of a
`keyVersion` member produce identical dispatch results (the same backend
request, with no `keyVersion` anywhere), so the claimed pass-through of
`keyVersion` to the backend is false. -/
theorem C1_counterexample :
    (List.lookup "keyVersion"
       [("key_id", JVal.str "rk"), ("ciphertext", JVal.str "CT"), ("keyVersion", JVal.str "2")] =
       some (JVal.str "2")) ∧
    (List.lookup "keyVersion"
       [("key_id", JVal.str "rk"), ("ciphertext", JVal.str "CT"), ("keyVersion", JVal.str "999")] =
       some (JVal.str "999")) ∧
    ("2" ≠ "999") ∧
    dispatch cfgAll bkEmpty "key_protect_unwrap_key"
        [("key_id", JVal.str "rk"), ("ciphertext", JVal.str "CT"), ("keyVersion", JVal.str "2")] =
      dispatch cfgAll bkEmpty "key_protect_unwrap_key"
        [("key_id", JVal.str "rk"), ("ciphertext", JVal.str "CT"), ("keyVersion", JVal.str "999")] :=
  ⟨rfl, rfl, by decide, rfl⟩

/-- C1 (amended): the adapter forwards `key_id` and the `ciphertext`
unaltered to the backend's versioned unwrap, but it accepts no
`keyVersion` argument — the dispatch result is invariant under any
`keyVersion` member of the argument object, and version selection is
wholly delegated to the backend (via the ciphertext), not via a
passed-through `keyVersion`. -/
theorem C1_unwrap_no_keyVersion (cfg : Config) (bk : Backend) (args : Args) (v : JVal)
    (hk : kpConfigured cfg = true) :
    dispatch cfg bk "key_protect_unwrap_key" (("keyVersion", v) :: args) =
      dispatch cfg bk "key_protect_unwrap_key" args ∧
    ∃ body : JVal,
      (dispatch cfg bk "key_protect_unwrap_key" args).requests =
        [BackendReq.unwrapKey (args.lookup "key_id") (kpInstance cfg) body] ∧
      body.get "ciphertext" = args.lookup "ciphertext" := by
  rw [dispatch_unwrap_key cfg bk (("keyVersion", v) :: args) hk,
      dispatch_unwrap_key cfg bk args hk]
  constructor
  · unfold unwrapReq unwrapBody
    simp [List.lookup_cons]
  · exact ⟨unwrapBody args, by rw [runCall_requests]; rfl, unwrapBody_get args⟩

/-- Witness for C1's amended theorem at a concrete configured input. -/
theorem C1_unwrap_no_keyVersion_witness :
    dispatch cfgAll bkEmpty "key_protect_unwrap_key"
        (("keyVersion", JVal.str "2") :: [("key_id", JVal.str "rk"), ("ciphertext", JVal.str "CT")]) =
      dispatch cfgAll bkEmpty "key_protect_unwrap_key"
        [("key_id", JVal.str "rk"), ("ciphertext", JVal.str "CT")] :=
  (C1_unwrap_no_keyVersion cfgAll bkEmpty
     [("key_id", JVal.str "rk"), ("ciphertext", JVal.str "CT")] (JVal.str "2") (by decide)).1

/-- C2 counterexample: a `zos_connect_call_service` invocation whose
operation path contains the placeholder `{id}` with no `path_params` at
all does NOT return a validation error — a network request IS issued, and
its URL carries the literal unresolved braces over the wire. -/
theorem C2_counterexample :
    (dispatch cfgAll bkEmpty "zos_connect_call_service"
        [("service_name", JVal.str "svc"), ("operation", JVal.str "/items/{id}")]).requests =
      [BackendReq.zosFetch "https://zos/zosConnect/services/svc/items/{id}"
         (JVal.str "POST") none] ∧
    ("https://zos/zosConnect/services/svc/items/{id}").data.contains (Char.ofNat 123) = true :=
  ⟨rfl, by decide⟩

/-- C2 (amended): no unresolved-placeholder validation exists — for any
service name and any non-empty operation path given without `path_params`,
the handler always issues exactly one network request whose URL embeds the
operation string verbatim, braces and all. -/
theorem C2_no_placeholder_validation (cfg : Config) (bk : Backend) (s op : String)
    (hz : zosConfigured cfg = true) (hop : op ≠ "") :
    (dispatch cfg bk "zos_connect_call_service"
        [("service_name", JVal.str s), ("operation", JVal.str op)]).requests =
      [BackendReq.zosFetch (zosBase cfg ++ ("/zosConnect/services/" ++ s ++ op))
         (JVal.str "POST") none] := by
  rw [dispatch_call_service cfg bk _ hz, runCall_requests]
  unfold callServiceReq callServiceEndpoint callServiceMethod callServiceBody
  simp [List.lookup_cons, jsOr, JVal.truthy, jsToString, jsToStringOpt, truthyOpt, hop]

/-- Witness for C2's amended theorem at a concrete input with an
unresolved `{id}` placeholder. -/
theorem C2_no_placeholder_validation_witness :
    (dispatch cfgAll bkEmpty "zos_connect_call_service"
        [("service_name", JVal.str "svc"), ("operation", JVal.str "/items/{id}")]).requests =
      [BackendReq.zosFetch (zosBase cfgAll ++ ("/zosConnect/services/" ++ "svc" ++ "/items/{id}"))
         (JVal.str "POST") none] :=
  C2_no_placeholder_validation cfgAll bkEmpty "svc" "/items/{id}" (by decide) (by decide)

/-- C3 counterexample: wrapping against `std-1` — a StandardKey in the
sample key directory — does NOT fail locally with WrongKeyType: the
backend network call is issued (the request list is non-empty), because the
handler contains no key-type check at all. -/
theorem C3_counterexample :
    sampleKeyTypes "std-1" = KeyType.StandardKey ∧
    (dispatch cfgAll bkEmpty "key_protect_wrap_key"
        [("key_id", JVal.str "std-1"), ("plaintext", JVal.str "REVL")]).requests =
      [BackendReq.wrapKey (some (JVal.str "std-1")) "inst-1"
         (JVal.obj [("plaintext", JVal.str "REVL")])] :=
  ⟨by decide, rfl⟩

/-- C3 (amended): the adapter performs no local key-type check — for every
argument object (hence for any `key_id`, of either key type),
wrap/unwrap/rotate each issue exactly their one backend call, and a
wrong-key-type failure can only arrive as the backend's thrown error,
surfaced as `Error: ...` text. -/
theorem C3_no_local_type_check (cfg : Config) (bk : Backend) (args : Args)
    (hk : kpConfigured cfg = true) :
    (dispatch cfg bk "key_protect_wrap_key" args).requests = [wrapReq cfg args] ∧
    (dispatch cfg bk "key_protect_unwrap_key" args).requests = [unwrapReq cfg args] ∧
    (dispatch cfg bk "key_protect_rotate_key" args).requests = [rotateReq cfg args] ∧
    (∀ m : String, bk (wrapReq cfg args) = .error m →
      (dispatch cfg bk "key_protect_wrap_key" args).content =
        [⟨"text", .raw ("Error: " ++ m)⟩]) := by
  refine ⟨?_, ?_, ?_, ?_⟩
  · rw [dispatch_wrap_key cfg bk args hk, runCall_requests]
  · rw [dispatch_unwrap_key cfg bk args hk, runCall_requests]
  · rw [dispatch_rotate_key cfg bk args hk, runCall_requests]
  · intro m hm
    rw [dispatch_wrap_key cfg bk args hk]
    unfold runCall
    rw [hm]

/-- Witness for C3's amended theorem at the concrete StandardKey input. -/
theorem C3_no_local_type_check_witness :
    (dispatch cfgAll bkEmpty "key_protect_wrap_key"
        [("key_id", JVal.str "std-1"), ("plaintext", JVal.str "REVL")]).requests =
      [wrapReq cfgAll [("key_id", JVal.str "std-1"), ("plaintext", JVal.str "REVL")]] :=
  (C3_no_local_type_check cfgAll bkEmpty
     [("key_id", JVal.str "std-1"), ("plaintext", JVal.str "REVL")] (by decide)).1

/-- C4 counterexample: invoking `key_protect_get_key` with an empty
argument object (the required `key_id` missing) yields no ValidationError —
the backend call is issued anyway, with an undefined id, and the result is
whatever the backend answers. -/
theorem C4_counterexample :
    (List.lookup "key_id" ([] : Args) = none) ∧
    (dispatch cfgAll bkEmpty "key_protect_get_key" []).requests =
      [BackendReq.getKey "inst-1" none] ∧
    (dispatch cfgAll bkEmpty "key_protect_get_key" []).content =
      [⟨"text", TextVal.json none⟩] :=
  ⟨rfl, rfl, rfl⟩

/-- C4 (amended): no schema validation precedes the adapters — for every
argument object, valid or not, `key_protect_get_key` issues exactly one
backend call carrying `args.key_id` exactly as supplied (absent included);
validation failures can only come from the backend. -/
theorem C4_no_argument_validation (cfg : Config) (bk : Backend) (args : Args)
    (hk : kpConfigured cfg = true) :
    (dispatch cfg bk "key_protect_get_key" args).requests =
      [BackendReq.getKey (kpInstance cfg) (args.lookup "key_id")] := by
  rw [dispatch_get_key cfg bk args hk, runCall_requests]

/-- Witness for C4's amended theorem at the empty argument object. -/
theorem C4_no_argument_validation_witness :
    (dispatch cfgAll bkEmpty "key_protect_get_key" []).requests =
      [BackendReq.getKey (kpInstance cfgAll) (List.lookup "key_id" ([] : Args))] :=
  C4_no_argument_validation cfgAll bkEmpty [] (by decide)

/-- C9 counterexample: a caller-supplied `limit` of `0` is NOT sent to the
backend — the JS `args.limit || 100` defaulting replaces the falsy `0`
with `100`. -/
theorem C9_counterexample :
    (List.lookup "limit" [("limit", JVal.num 0)] = some (JVal.num 0)) ∧
    (dispatch cfgAll bkEmpty "key_protect_list_keys" [("limit", JVal.num 0)]).requests =
      [BackendReq.getKeys "inst-1" (JVal.num 100) (JVal.num 0) none] ∧
    JVal.num 100 ≠ JVal.num 0 :=
  ⟨rfl, rfl, by simp⟩

/-- C9 (amended): the limit/offset actually sent equal the caller values
only when those are truthy — a non-zero limit and any numeric offset pass
through (offset `0` coincides with its default), while limit `0` (falsy in
JS) is replaced by the default `100`; the defaults `100`/`0` also apply
when the fields are omitted. -/
theorem C9_list_defaults (cfg : Config) (bk : Backend) (args : Args)
    (hk : kpConfigured cfg = true) :
    ∃ L O : JVal,
      (dispatch cfg bk "key_protect_list_keys" args).requests =
        [BackendReq.getKeys (kpInstance cfg) L O (args.lookup "state")] ∧
      (∀ l : Int, args.lookup "limit" = some (.num l) → l ≠ 0 → L = .num l) ∧
      (args.lookup "limit" = none → L = .num 100) ∧
      (args.lookup "limit" = some (.num 0) → L = .num 100) ∧
      (∀ o : Int, args.lookup "offset" = some (.num o) → O = .num o) ∧
      (args.lookup "offset" = none → O = .num 0) := by
  refine ⟨jsOr (args.lookup "limit") (.num 100), jsOr (args.lookup "offset") (.num 0),
    ?_, ?_, ?_, ?_, ?_, ?_⟩
  · rw [dispatch_list_keys cfg bk args hk, runCall_requests]
    rfl
  · intro l hl hlne
    rw [hl]
    simp [jsOr, JVal.truthy, hlne]
  · intro h
    rw [h]
    rfl
  · intro h
    rw [h]
    simp [jsOr, JVal.truthy]
  · intro o ho
    rw [ho]
    rcases eq_or_ne o 0 with h0 | h0 <;> simp [jsOr, JVal.truthy, h0]
  · intro h
    rw [h]
    rfl

/-- Witness for C9's amended theorem: limit 5 passes through, omitted
offset defaults to 0, omitted state is undefined. -/
theorem C9_list_defaults_witness :
    (dispatch cfgAll bkEmpty "key_protect_list_keys" [("limit", JVal.num 5)]).requests =
      [BackendReq.getKeys "inst-1" (JVal.num 5) (JVal.num 0) none] := by
  obtain ⟨L, O, hreq, hl, _, _, _, hono⟩ :=
    C9_list_defaults cfgAll bkEmpty [("limit", JVal.num 5)] (by decide)
  rw [hl 5 rfl (by decide), hono rfl] at hreq
  exact hreq

/-- C6 counterexample: `key_protect_bogus` is not in the catalog, yet with
Key Protect unconfigured the dispatch answer is the ConfigurationMissing
diagnostic, not the unknown-operation echo — so the unknown-name echo does
NOT hold regardless of backend configuration. -/
theorem C6_counterexample :
    ("key_protect_bogus" ∉ catalogNames) ∧
    (dispatch cfgZosOnly bkEmpty "key_protect_bogus" []).content =
      [⟨"text", TextVal.raw kpMissingText⟩] ∧
    kpMissingText ≠ "Unknown tool: key_protect_bogus" :=
  ⟨by decide, rfl, by decide⟩

/-- C6 (amended): an invocation name outside the catalog is echoed back as
`Unknown tool: <name>` with no backend call — provided that any backend
prefix the name carries belongs to a configured backend (an unconfigured
prefixed name is intercepted by the configuration check first, per C10). -/
theorem C6_unknown_tool_echo (cfg : Config) (bk : Backend) (name : String) (args : Args)
    (hcat : name ∉ catalogNames)
    (hkp : jsStartsWith name "key_protect_" = true → kpConfigured cfg = true)
    (hzos : jsStartsWith name "zos_connect_" = true → zosConfigured cfg = true) :
    dispatch cfg bk name args = noCall (.raw ("Unknown tool: " ++ name)) := by
  simp only [catalogNames, List.mem_cons, List.not_mem_nil, or_false, not_or] at hcat
  have hz : dispatchZos cfg bk name args = noCall (.raw ("Unknown tool: " ++ name)) := by
    unfold dispatchZos
    split
    · rename_i h
      rw [hzos h]
      simp only [Bool.not_true]
      rw [if_neg (by simp)]
      split <;> simp_all
    · rfl
  unfold dispatch
  split
  · rename_i h
    rw [hkp h]
    simp only [Bool.not_true]
    rw [if_neg (by simp)]
    split <;> first
      | exact hz
      | simp_all
  · exact hz

/-- Witness for C6's amended theorem at the spec's scenario input. -/
theorem C6_unknown_tool_echo_witness :
    dispatch cfgAll bkEmpty "totally_unknown_tool" [] =
      noCall (.raw ("Unknown tool: " ++ "totally_unknown_tool")) :=
  C6_unknown_tool_echo cfgAll bkEmpty "totally_unknown_tool" []
    (by decide) (by decide) (by decide)

/-- C7 counterexample: with `path_params = {id: "1"}` and the operation
`/a/{id}/b/{id}`, only the FIRST `{id}` is substituted — the issued URL
still contains the second, literal `{id}` (JS `String.replace` with a
string pattern replaces one occurrence). -/
theorem C7_counterexample :
    (dispatch cfgAll bkEmpty "zos_connect_call_service"
        [("service_name", JVal.str "svc"), ("operation", JVal.str "/a/{id}/b/{id}"),
         ("path_params", JVal.obj [("id", JVal.str "1")])]).requests =
      [BackendReq.zosFetch "https://zos/zosConnect/services/svc/a/1/b/{id}"
         (JVal.str "POST") none] ∧
    ("https://zos/zosConnect/services/svc/a/1/b/{id}").data.contains (Char.ofNat 123) = true :=
  ⟨rfl, by decide⟩

/-- C7 (amended): one substitution step replaces only the FIRST occurrence
of `{key}` in the endpoint with the URL-encoded value — the suffix after
that occurrence, any repeated occurrences of the same placeholder
included, is left verbatim. -/
theorem C7_replace_first_only (k : String) (v : JVal) (pre suf : String)
    (h : noMatchBefore ("\x7b" ++ k ++ "\x7d").data pre.data
           (("\x7b" ++ k ++ "\x7d").data ++ suf.data) = true) :
    substOne (pre ++ ("\x7b" ++ k ++ "\x7d") ++ suf) k v =
      pre ++ encodeURIComponent (jsToString v) ++ suf := by
  unfold substOne jsReplaceFirst
  have hne : ("\x7b" ++ k ++ "\x7d").data ≠ [] := by
    rw [String.data_append]
    intro h0
    rw [List.append_eq_nil] at h0
    exact absurd h0.2 (by decide)
  generalize hp : ("\x7b" ++ k ++ "\x7d") = pat at h hne ⊢
  apply String.ext
  simp only [String.data_append, List.append_assoc]
  exact replaceFirstAux_append pat.data (encodeURIComponent (jsToString v)).data hne
    pre.data suf.data h

/-- Witness for C7's amended theorem: substituting `id := "1"` into
`/a/{id}/b/{id}` rewrites the first occurrence and leaves the second. -/
theorem C7_replace_first_only_witness :
    substOne ("/a/" ++ ("\x7b" ++ "id" ++ "\x7d") ++ "/b/{id}") "id" (JVal.str "1") =
      "/a/" ++ encodeURIComponent (jsToString (JVal.str "1")) ++ "/b/{id}" :=
  C7_replace_first_only "id" (JVal.str "1") "/a/" "/b/{id}" (by decide)

/-- A backend oracle answering create with a full key resource, including
the `extractable: false` the backend would report for a root key. -/
def bkCreate : Backend := fun _ => .ok (JVal.obj
  [("result", .obj [("resources", .arr [.obj
     [("id", .str "kid1"), ("name", .str "k1"),
      ("type", .str "application/vnd.ibm.kms.key+json"),
      ("crn", .str "crn1"), ("extractable", .bool false)]])])])

/-- C8 counterexample: `create({name:"k1", type:"root_key",
extractable:true})` does force `extractable: false` in the backend request,
but the key record returned to the caller carries only `id`, `name`,
`type`, `crn` — even when the backend reports `extractable: false`, the
returned record has no `extractable` member at all, so it does not reflect
`extractable == false`. -/
theorem C8_counterexample :
    ((createKeyResource
        [("name", JVal.str "k1"), ("type", JVal.str "root_key"), ("extractable", JVal.bool true)]).lookup
       "extractable" = some (JVal.bool false)) ∧
    (dispatch cfgAll bkCreate "key_protect_create_key"
        [("name", JVal.str "k1"), ("type", JVal.str "root_key"), ("extractable", JVal.bool true)]).content =
      [⟨"text", TextVal.json (some (JVal.obj
        [("message", JVal.str "Key \"k1\" created successfully"),
         ("key", JVal.obj [("id", JVal.str "kid1"), ("name", JVal.str "k1"),
                           ("type", JVal.str "application/vnd.ibm.kms.key+json"),
                           ("crn", JVal.str "crn1")])]))⟩] ∧
    ((JVal.obj [("id", JVal.str "kid1"), ("name", JVal.str "k1"),
                ("type", JVal.str "application/vnd.ibm.kms.key+json"),
                ("crn", JVal.str "crn1")]).get "extractable" = none) :=
  ⟨rfl, rfl, rfl⟩

/-- C8 (amended): for a `root_key` create, `extractable` is forced to
`false` in the creation request regardless of the caller's value, the one
backend call carries that request, and the record returned to the caller
echoes only the backend's `id`/`name`/`type`/`crn` — it never contains an
`extractable` member. -/
theorem C8_extractable_forced_in_request (cfg : Config) (bk : Backend) (args : Args)
    (hk : kpConfigured cfg = true)
    (hroot : isStrVal (args.lookup "type") "root_key" = true) :
    ((createKeyResource args).lookup "extractable" = some (JVal.bool false)) ∧
    (dispatch cfg bk "key_protect_create_key" args).requests =
      [BackendReq.createKey (kpInstance cfg) (createKeyBody args)] ∧
    (∀ resp : JVal, ∃ keyObj : JVal,
      createShape args resp = TextVal.json (some (JVal.obj
        [("message", JVal.str ("Key \"" ++ jsToStringOpt (args.lookup "name") ++ "\" created successfully")),
         ("key", keyObj)])) ∧
      keyObj.get "extractable" = none) := by
  refine ⟨?_, ?_, ?_⟩
  · unfold createKeyResource
    rw [hroot]
    cases hn : args.lookup "name" with
    | none => simp [optField, List.lookup_cons]
    | some nv => simp [optField, List.lookup_cons]
  · rw [dispatch_create_key cfg bk args hk, runCall_requests]
  · intro resp
    refine ⟨_, rfl, ?_⟩
    apply mkObj_get_of_not_mem
    simp only [List.map_cons, List.map_nil]
    decide

/-- Witness for C8's amended theorem at the spec's create-key scenario. -/
theorem C8_extractable_forced_in_request_witness :
    (createKeyResource
        [("name", JVal.str "k1"), ("type", JVal.str "root_key"), ("extractable", JVal.bool true)]).lookup
      "extractable" = some (JVal.bool false) :=
  (C8_extractable_forced_in_request cfgAll bkEmpty
     [("name", JVal.str "k1"), ("type", JVal.str "root_key"), ("extractable", JVal.bool true)]
     (by decide) (by decide)).1
